import Mathlib

/-!
# Verification of the real-time event synchronization client

A shallow embedding of `src/Frontend/src/hooks/useTicketWebSocket.js`,
the dashboard's WebSocket hook.  The pure message reducer (the
`useEffect` body that switches on the inbound frame's `type` tag) is
embedded as `handleMessage`.  The connection lifecycle — the
`react-use-websocket` callbacks and reconnection options configured by
the hook (`shouldReconnect: () => true`, `reconnectAttempts: 10`,
`reconnectInterval: 3000`) together with the hook's own `useEffect`
blocks keyed on `readyState` (the subscribe effect, the heartbeat
interval, the status map) — is embedded as a transition system `step`
over `HookState`.  Payload element types are kept abstract (`T` for
timeline entries, `P` for pending tickets): the hook stores the decoded
arrays verbatim and never inspects their elements.
-/

/-- An inbound JSON frame as destructured by the hook:
`const { type, timeline, pending_tickets } = lastJsonMessage`.
A missing or `null` field (falsy in the JS truthiness tests
`if (newTimeline)` / `if (newPendingTickets)`) is `none`. -/
structure Msg (T P : Type) where
  type : String
  timeline : Option (List T)
  pending_tickets : Option (List P)
deriving DecidableEq, Repr

/-- The slice of React state written by the message reducer:
`timeline`, `pendingTickets` and `lastMessage` (`useState` hooks). -/
structure StoreState (T P : Type) where
  timeline : List T
  pendingTickets : List P
  lastMessage : Option (Msg T P)
deriving DecidableEq, Repr

/-- The message-handling `useEffect` body of `useTicketWebSocket`.
It first records the frame (`setLastMessage(lastJsonMessage)`), then
switches on `type`:

* `initial_data` — `if (newTimeline) setTimeline(newTimeline)` and
  `if (newPendingTickets) setPendingTickets(newPendingTickets)`;
* `timeline_update` — `if (newTimeline) setTimeline(newTimeline)`;
* `pending_tickets_update` — `if (newPendingTickets)
  setPendingTickets(newPendingTickets)`;
* `ticket_update`, `connection_established`, `error` and the `default`
  branch only call `console.log` / `console.error`. -/
def handleMessage {T P : Type} (s : StoreState T P) (m : Msg T P) :
    StoreState T P :=
  let s1 : StoreState T P := { s with lastMessage := some m }
  if m.type = "initial_data" then
    let s2 : StoreState T P :=
      match m.timeline with
      | some t => { s1 with timeline := t }
      | none => s1
    match m.pending_tickets with
    | some p => { s2 with pendingTickets := p }
    | none => s2
  else if m.type = "timeline_update" then
    match m.timeline with
    | some t => { s1 with timeline := t }
    | none => s1
  else if m.type = "pending_tickets_update" then
    match m.pending_tickets with
    | some p => { s1 with pendingTickets := p }
    | none => s1
  else
    s1

/-- The library readyState enumeration used by the hook
(`react-use-websocket`'s `ReadyState`). -/
inductive ReadyState where
  | UNINSTANTIATED
  | CONNECTING
  | OPEN
  | CLOSING
  | CLOSED
deriving DecidableEq, Repr

/-- A client-originated wire frame.  The hook sends three kinds:
the subscription declaration, the heartbeat `{type: "ping"}`, and
consumer messages forwarded by the returned `sendMessage` wrapper
(`JSON.stringify(message)`, kept abstract as a string payload). -/
inductive WireFrame where
  | subscribe (subscriptions : List String)
  | ping
  | custom (payload : String)
deriving DecidableEq, Repr

/-- The fixed topic set of the subscription declaration sent by the
subscribe `useEffect` when `readyState === ReadyState.OPEN`. -/
def subscribeFrame : WireFrame :=
  WireFrame.subscribe
    ["timeline_updates", "pending_tickets_updates", "ticket_updates"]

/-- Recognizes the subscription declaration constructor. -/
def isSubscribeFrame : WireFrame → Bool
  | WireFrame.subscribe _ => true
  | _ => false

/-- The heartbeat period of the ping `setInterval` (milliseconds). -/
def pingIntervalMs : Nat := 30000

/-- The `reconnectInterval` option (milliseconds). -/
def reconnectIntervalMs : Nat := 3000

/-- The `reconnectAttempts` option: bound on retries for one
connection instance. -/
def maxReconnectAttempts : Nat := 10

/-- The full observable state of one hook instance: the store slice,
the `connectionStatus` string, the library `readyState`, whether the
heartbeat interval of the ping `useEffect` is currently registered,
whether a reconnection timer is pending, how many reconnection
attempts have been made for the current connection instance, and the
log of client-originated frames sent on the current connection. -/
structure HookState (T P : Type) where
  store : StoreState T P
  connectionStatus : String
  readyState : ReadyState
  pingTimerActive : Bool
  reconnectPending : Bool
  reconnectCount : Nat
  sentThisConn : List WireFrame
deriving DecidableEq, Repr

/-- Hook state on instantiation: `useState([])` twice,
`useState('Connecting')`, `useState(null)`; the library starts
connecting immediately, no timers are registered yet and nothing has
been sent. -/
def initHookState (T P : Type) : HookState T P :=
  { store := { timeline := [], pendingTickets := [], lastMessage := none }
    connectionStatus := "Connecting"
    readyState := ReadyState.CONNECTING
    pingTimerActive := false
    reconnectPending := false
    reconnectCount := 0
    sentThisConn := [] }

/-- Environment events delivered to the hook on the single-threaded
event loop: the socket callbacks (`onOpen`; `onClose`, with `onError`
immediately preceding `onClose` in the same task for an abnormal
closure, per the WebSocket close algorithm), an inbound decoded frame,
the ping interval firing, the library's reconnection timer firing, and
a call to the returned `sendMessage` wrapper. -/
inductive Event (T P : Type) where
  | opened
  | closed
  | errored
  | recv (m : Msg T P)
  | pingTimer
  | reconnectTimer
  | consumerSend (payload : String)

/-- One event-loop step of the hook: returns the new state and the
list of client-originated frames emitted during the step.

* `opened` — `onOpen` sets status `Connected`; the subscribe effect
  re-runs on the `readyState` change and sends exactly one
  `subscribe` frame; the ping effect registers its interval; the
  library resets its reconnect counter on a successful connection.
* `closed` / `errored` — on a socket that is not already closed,
  `onClose` sets status `Disconnected` (for `errored`, `onError` sets
  `Error` first in the same task); the ping effect's cleanup clears
  the interval; the library consults `shouldReconnect` (always true
  here) and schedules a retry after `reconnectIntervalMs` iff fewer
  than `maxReconnectAttempts` attempts have been made.
* `recv m` — frames arrive only on an open socket; the message
  `useEffect` applies `handleMessage`.
* `pingTimer` — the interval callback, if registered, sends
  `{type: "ping"}`.
* `reconnectTimer` — a pending retry moves the socket back to
  `CONNECTING` and the status map effect to `Connecting`.
* `consumerSend` — the returned `sendMessage` wrapper sends iff
  `readyState === ReadyState.OPEN`, else silently drops. -/
def step {T P : Type} (s : HookState T P) :
    Event T P → HookState T P × List WireFrame
  | Event.opened =>
      ({ s with
          readyState := ReadyState.OPEN
          connectionStatus := "Connected"
          pingTimerActive := true
          reconnectPending := false
          reconnectCount := 0
          sentThisConn := [subscribeFrame] },
        [subscribeFrame])
  | Event.closed =>
      if s.readyState = ReadyState.CLOSED then (s, [])
      else
        ({ s with
            readyState := ReadyState.CLOSED
            connectionStatus := "Disconnected"
            pingTimerActive := false
            reconnectPending := s.reconnectCount < maxReconnectAttempts
            reconnectCount :=
              if s.reconnectCount < maxReconnectAttempts then
                s.reconnectCount + 1
              else s.reconnectCount },
          [])
  | Event.errored =>
      if s.readyState = ReadyState.CLOSED then (s, [])
      else
        ({ s with
            readyState := ReadyState.CLOSED
            connectionStatus := "Disconnected"
            pingTimerActive := false
            reconnectPending := s.reconnectCount < maxReconnectAttempts
            reconnectCount :=
              if s.reconnectCount < maxReconnectAttempts then
                s.reconnectCount + 1
              else s.reconnectCount },
          [])
  | Event.recv m =>
      if s.readyState = ReadyState.OPEN then
        ({ s with store := handleMessage s.store m }, [])
      else (s, [])
  | Event.pingTimer =>
      if s.pingTimerActive then
        ({ s with sentThisConn := s.sentThisConn ++ [WireFrame.ping] },
          [WireFrame.ping])
      else (s, [])
  | Event.reconnectTimer =>
      if s.reconnectPending then
        ({ s with
            readyState := ReadyState.CONNECTING
            connectionStatus := "Connecting"
            reconnectPending := false },
          [])
      else (s, [])
  | Event.consumerSend payload =>
      if s.readyState = ReadyState.OPEN then
        ({ s with
            sentThisConn := s.sentThisConn ++ [WireFrame.custom payload] },
          [WireFrame.custom payload])
      else (s, [])

/-- State part of a step. -/
def stepState {T P : Type} (s : HookState T P) (e : Event T P) :
    HookState T P :=
  (step s e).1

/-- Frames emitted during a step. -/
def stepOut {T P : Type} (s : HookState T P) (e : Event T P) :
    List WireFrame :=
  (step s e).2

/-- Run a sequence of events from a state. -/
def run {T P : Type} (s : HookState T P) (es : List (Event T P)) :
    HookState T P :=
  es.foldl stepState s

/-- A state the hook can actually be in: obtained from the initial
state by some event sequence. -/
def reachable {T P : Type} (s : HookState T P) : Prop :=
  ∃ es : List (Event T P), run (initHookState T P) es = s

/-- Invariant maintained by every step of the hook:
the status map ties `Connected` to `readyState OPEN`; the heartbeat
interval is registered exactly while the socket is open; on an open
socket the subscription declaration was the first frame sent on this
connection and no second one was sent; a successful connection resets
the attempt counter; a retry is only ever pending on a closed socket;
and the attempt counter never exceeds the configured bound. -/
def HookInv {T P : Type} (s : HookState T P) : Prop :=
  (s.connectionStatus = "Connected" ↔ s.readyState = ReadyState.OPEN)
  ∧ (s.pingTimerActive = true ↔ s.readyState = ReadyState.OPEN)
  ∧ (s.readyState = ReadyState.OPEN →
      ∃ t, s.sentThisConn = subscribeFrame :: t
        ∧ t.filter (fun f => isSubscribeFrame f) = [])
  ∧ (s.readyState = ReadyState.OPEN → s.reconnectCount = 0)
  ∧ (s.reconnectPending = true → s.readyState = ReadyState.CLOSED)
  ∧ s.reconnectCount ≤ maxReconnectAttempts

theorem init_inv {T P : Type} : HookInv (initHookState T P) := by
  simp [HookInv, initHookState, maxReconnectAttempts]

theorem inv_step {T P : Type} (s : HookState T P) (e : Event T P)
    (h : HookInv s) : HookInv (stepState s e) := by
  obtain ⟨h1, h2, h3, h4, h5, h6⟩ := h
  cases e with
  | opened =>
      refine ⟨by simp [stepState, step], by simp [stepState, step],
        fun _ => ⟨[], by simp [stepState, step]⟩,
        by simp [stepState, step], by simp [stepState, step],
        by simp [stepState, step, maxReconnectAttempts]⟩
  | closed =>
      by_cases hc : s.readyState = ReadyState.CLOSED
      · simpa [stepState, step, hc] using ⟨h1, h2, h3, h4, h5, h6⟩
      · by_cases hlt : s.reconnectCount < maxReconnectAttempts
        · refine ⟨by simp [stepState, step, hc, hlt],
            by simp [stepState, step, hc, hlt],
            by simp [stepState, step, hc, hlt],
            by simp [stepState, step, hc, hlt],
            by simp [stepState, step, hc, hlt],
            by simp [stepState, step, hc, hlt]; omega⟩
        · refine ⟨by simp [stepState, step, hc, hlt],
            by simp [stepState, step, hc, hlt],
            by simp [stepState, step, hc, hlt],
            by simp [stepState, step, hc, hlt],
            by simp [stepState, step, hc, hlt],
            by simp [stepState, step, hc, hlt]; omega⟩
  | errored =>
      by_cases hc : s.readyState = ReadyState.CLOSED
      · simpa [stepState, step, hc] using ⟨h1, h2, h3, h4, h5, h6⟩
      · by_cases hlt : s.reconnectCount < maxReconnectAttempts
        · refine ⟨by simp [stepState, step, hc, hlt],
            by simp [stepState, step, hc, hlt],
            by simp [stepState, step, hc, hlt],
            by simp [stepState, step, hc, hlt],
            by simp [stepState, step, hc, hlt],
            by simp [stepState, step, hc, hlt]; omega⟩
        · refine ⟨by simp [stepState, step, hc, hlt],
            by simp [stepState, step, hc, hlt],
            by simp [stepState, step, hc, hlt],
            by simp [stepState, step, hc, hlt],
            by simp [stepState, step, hc, hlt],
            by simp [stepState, step, hc, hlt]; omega⟩
  | recv m =>
      by_cases ho : s.readyState = ReadyState.OPEN
      · exact ⟨by simpa [stepState, step, ho] using h1,
          by simpa [stepState, step, ho] using h2,
          by simpa [stepState, step, ho] using h3,
          by simpa [stepState, step, ho] using h4,
          by simpa [stepState, step, ho] using h5,
          by simpa [stepState, step, ho] using h6⟩
      · simpa [stepState, step, ho] using ⟨h1, h2, h3, h4, h5, h6⟩
  | pingTimer =>
      by_cases ha : s.pingTimerActive = true
      · have ho : s.readyState = ReadyState.OPEN := h2.mp ha
        obtain ⟨t, ht, htf⟩ := h3 ho
        refine ⟨by simpa [stepState, step, ha] using h1,
          by simpa [stepState, step, ha] using h2,
          fun _ => ⟨t ++ [WireFrame.ping], ?_, ?_⟩,
          by simpa [stepState, step, ha] using h4,
          by simpa [stepState, step, ha] using h5,
          by simpa [stepState, step, ha] using h6⟩
        · simp [stepState, step, ha, ht]
        · rw [List.filter_append, htf]
          simp [isSubscribeFrame]
      · simpa [stepState, step, ha] using ⟨h1, h2, h3, h4, h5, h6⟩
  | reconnectTimer =>
      by_cases hp : s.reconnectPending = true
      · have hcl : s.readyState = ReadyState.CLOSED := h5 hp
        have hact : s.pingTimerActive = false := by
          cases hb : s.pingTimerActive
          · rfl
          · exact absurd (h2.mp hb) (by simp [hcl])
        refine ⟨by simp [stepState, step, hp],
          by simp [stepState, step, hp, hact],
          by simp [stepState, step, hp],
          by simp [stepState, step, hp],
          by simp [stepState, step, hp],
          by simpa [stepState, step, hp] using h6⟩
      · simpa [stepState, step, hp] using ⟨h1, h2, h3, h4, h5, h6⟩
  | consumerSend payload =>
      by_cases ho : s.readyState = ReadyState.OPEN
      · obtain ⟨t, ht, htf⟩ := h3 ho
        refine ⟨by simpa [stepState, step, ho] using h1,
          by simpa [stepState, step, ho] using h2,
          fun _ => ⟨t ++ [WireFrame.custom payload], ?_, ?_⟩,
          by simpa [stepState, step, ho] using h4,
          by simpa [stepState, step, ho] using h5,
          by simpa [stepState, step, ho] using h6⟩
        · simp [stepState, step, ho, ht]
        · rw [List.filter_append, htf]
          simp [isSubscribeFrame]
      · simpa [stepState, step, ho] using ⟨h1, h2, h3, h4, h5, h6⟩

theorem run_inv {T P : Type} (es : List (Event T P)) :
    ∀ s : HookState T P, HookInv s → HookInv (run s es) := by
  induction es with
  | nil => intro s h; exact h
  | cons e es ih =>
      intro s h
      exact ih (stepState s e) (inv_step s e h)

theorem reachable_inv {T P : Type} (s : HookState T P)
    (h : reachable s) : HookInv s := by
  obtain ⟨es, hes⟩ := h
  exact hes ▸ run_inv es (initHookState T P) init_inv

/-- C1: for every sequence of `timeline_update` frames each carrying a
timeline payload, the Timeline after processing the sequence equals the
payload of the most recently processed frame; arrival order alone
determines the final state. -/
theorem timeline_last_write_wins {T P : Type} (s : StoreState T P)
    (ms : List (Msg T P)) (mlast : Msg T P)
    (hall : ∀ m ∈ ms, m.type = "timeline_update" ∧ m.timeline.isSome)
    (hlast : ms.getLast? = some mlast) :
    some (List.foldl handleMessage s ms).timeline = mlast.timeline := by
  induction ms generalizing s with
  | nil => simp at hlast
  | cons m rest ih =>
      cases rest with
      | nil =>
          simp only [List.getLast?_singleton, Option.some.injEq] at hlast
          subst hlast
          obtain ⟨hty, hsome⟩ := hall m (by simp)
          obtain ⟨t, ht⟩ := Option.isSome_iff_exists.mp hsome
          simp [handleMessage, hty, ht]
      | cons m2 rest2 =>
          rw [List.getLast?_cons_cons] at hlast
          have hall' : ∀ m' ∈ m2 :: rest2,
              m'.type = "timeline_update" ∧ m'.timeline.isSome :=
            fun m' hm' => hall m' (List.mem_cons_of_mem m hm')
          simpa using ih (handleMessage s m) hall' hlast

/-- Witness for C1 at a concrete two-frame sequence. -/
theorem timeline_last_write_wins_witness :
    some (List.foldl handleMessage
        ({ timeline := [], pendingTickets := [], lastMessage := none } :
          StoreState Nat Nat)
        [{ type := "timeline_update", timeline := some [1],
           pending_tickets := none },
         { type := "timeline_update", timeline := some [2, 3],
           pending_tickets := none }]).timeline = some [2, 3] :=
  timeline_last_write_wins _ _
    { type := "timeline_update", timeline := some [2, 3],
      pending_tickets := none }
    (by decide) (by decide)

/-- C7: processing the same `pending_tickets_update` frame twice in a
row leaves the PendingTicket collection after the second delivery equal
to its value after the first delivery. -/
theorem pending_update_idempotent {T P : Type} (s : StoreState T P)
    (m : Msg T P) (h : m.type = "pending_tickets_update") :
    (handleMessage (handleMessage s m) m).pendingTickets
      = (handleMessage s m).pendingTickets := by
  cases hp : m.pending_tickets <;> simp [handleMessage, h, hp]

/-- Witness for C7 at a concrete frame. -/
theorem pending_update_idempotent_witness :
    (handleMessage (handleMessage
        ({ timeline := [], pendingTickets := [7], lastMessage := none } :
          StoreState Nat Nat)
        { type := "pending_tickets_update", timeline := none,
          pending_tickets := some [5] })
        { type := "pending_tickets_update", timeline := none,
          pending_tickets := some [5] }).pendingTickets
      = (handleMessage
        ({ timeline := [], pendingTickets := [7], lastMessage := none } :
          StoreState Nat Nat)
        { type := "pending_tickets_update", timeline := none,
          pending_tickets := some [5] }).pendingTickets :=
  pending_update_idempotent _ _ rfl

/-- C9: a `timeline_update`, `pending_tickets_update` or `initial_data`
frame whose corresponding field is absent or null leaves the
corresponding collection unchanged. -/
theorem null_payload_preserves_state {T P : Type} (s : StoreState T P)
    (m : Msg T P)
    (h : m.type = "timeline_update" ∨ m.type = "pending_tickets_update"
      ∨ m.type = "initial_data") :
    (m.timeline = none → (handleMessage s m).timeline = s.timeline)
    ∧ (m.pending_tickets = none →
        (handleMessage s m).pendingTickets = s.pendingTickets) := by
  refine ⟨fun hn => ?_, fun hn => ?_⟩
  · rcases h with h | h | h <;>
      cases hp : m.pending_tickets <;> simp [handleMessage, h, hn, hp]
  · rcases h with h | h | h <;>
      cases ht : m.timeline <;> simp [handleMessage, h, hn, ht]

/-- Witness for C9 at a concrete `timeline_update` frame with a null
timeline field and a concrete `initial_data` frame with both fields
null. -/
theorem null_payload_preserves_state_witness :
    (handleMessage
        ({ timeline := [4], pendingTickets := [7], lastMessage := none } :
          StoreState Nat Nat)
        { type := "timeline_update", timeline := none,
          pending_tickets := none }).timeline = [4]
    ∧ (handleMessage
        ({ timeline := [4], pendingTickets := [7], lastMessage := none } :
          StoreState Nat Nat)
        { type := "initial_data", timeline := none,
          pending_tickets := none }).pendingTickets = [7] := by
  have h1 := null_payload_preserves_state
    ({ timeline := [4], pendingTickets := [7], lastMessage := none } :
      StoreState Nat Nat)
    { type := "timeline_update", timeline := none, pending_tickets := none }
    (Or.inl rfl)
  have h2 := null_payload_preserves_state
    ({ timeline := [4], pendingTickets := [7], lastMessage := none } :
      StoreState Nat Nat)
    { type := "initial_data", timeline := none, pending_tickets := none }
    (Or.inr (Or.inr rfl))
  exact ⟨h1.1 rfl, h2.2 rfl⟩

/-- C10: immediately after the hook is instantiated, the Timeline and
PendingTicket collections are empty lists, the connection status is the
string `Connecting`, and the last-message field is null. -/
theorem initial_state_spec (T P : Type) :
    (initHookState T P).store.timeline = []
    ∧ (initHookState T P).store.pendingTickets = []
    ∧ (initHookState T P).connectionStatus = "Connecting"
    ∧ (initHookState T P).store.lastMessage = none :=
  ⟨rfl, rfl, rfl, rfl⟩

/-- C2: a heartbeat `{type: "ping"}` is emitted on the fixed
30-second interval exactly while the connection status is `Connected`;
a close clears the heartbeat interval, and no further ping fires after
the close. -/
theorem heartbeat_only_while_connected {T P : Type} (s : HookState T P)
    (hr : reachable s) :
    (∀ e : Event T P,
      WireFrame.ping ∈ stepOut s e → s.connectionStatus = "Connected")
    ∧ (s.connectionStatus = "Connected" →
        stepOut s Event.pingTimer = [WireFrame.ping])
    ∧ (stepState s Event.closed).pingTimerActive = false
    ∧ stepOut (stepState s Event.closed) Event.pingTimer = []
    ∧ pingIntervalMs = 30000 := by
  have hi := reachable_inv s hr
  have hclosed : (stepState s Event.closed).pingTimerActive = false := by
    by_cases hc : s.readyState = ReadyState.CLOSED
    · have : ¬ s.pingTimerActive = true := fun ha => by
        simp [hi.2.1.mp ha] at hc
      simp [stepState, step, hc]
      simpa using this
    · by_cases hlt : s.reconnectCount < maxReconnectAttempts <;>
        simp [stepState, step, hc, hlt]
  refine ⟨?_, ?_, hclosed, ?_, rfl⟩
  · intro e hmem
    cases e with
    | opened =>
        simp [stepOut, step, subscribeFrame] at hmem
    | closed =>
        by_cases hc : s.readyState = ReadyState.CLOSED <;>
          simp [stepOut, step, hc] at hmem
    | errored =>
        by_cases hc : s.readyState = ReadyState.CLOSED <;>
          simp [stepOut, step, hc] at hmem
    | recv m =>
        by_cases ho : s.readyState = ReadyState.OPEN <;>
          simp [stepOut, step, ho] at hmem
    | pingTimer =>
        by_cases ha : s.pingTimerActive = true
        · exact hi.1.mpr (hi.2.1.mp ha)
        · simp [stepOut, step, ha] at hmem
    | reconnectTimer =>
        by_cases hp : s.reconnectPending = true <;>
          simp [stepOut, step, hp] at hmem
    | consumerSend payload =>
        by_cases ho : s.readyState = ReadyState.OPEN <;>
          simp [stepOut, step, ho] at hmem
  · intro hconn
    have ha : s.pingTimerActive = true := hi.2.1.mpr (hi.1.mp hconn)
    simp [stepOut, step, ha]
  · simp [stepOut, step, hclosed]

/-- Witness for C2: in the connected state reached by opening the
socket, the interval emits a ping; after a close, it emits nothing. -/
theorem heartbeat_only_while_connected_witness :
    stepOut (stepState (initHookState Nat Nat) Event.opened)
        Event.pingTimer = [WireFrame.ping]
    ∧ stepOut (stepState (stepState (initHookState Nat Nat) Event.opened)
        Event.closed) Event.pingTimer = [] := by
  have h := heartbeat_only_while_connected
    (stepState (initHookState Nat Nat) Event.opened) ⟨[Event.opened], rfl⟩
  exact ⟨h.2.1 rfl, h.2.2.2.1⟩

/-- C3: on every transition into `Connected` exactly one `subscribe`
frame listing the fixed topic set is emitted, and on an open connection
the subscription declaration is the first client-originated frame sent
and no other `subscribe` frame follows it. -/
theorem subscribe_once_per_connection {T P : Type} (s : HookState T P)
    (hr : reachable s) :
    stepOut s (Event.opened : Event T P) = [subscribeFrame]
    ∧ (s.readyState = ReadyState.OPEN →
        ∃ t, s.sentThisConn = subscribeFrame :: t
          ∧ t.filter (fun f => isSubscribeFrame f) = []) :=
  ⟨rfl, (reachable_inv s hr).2.2.1⟩

/-- Witness for C3 in the state reached by opening the socket. -/
theorem subscribe_once_per_connection_witness :
    stepOut (stepState (initHookState Nat Nat) Event.opened)
        Event.opened = [subscribeFrame]
    ∧ ∃ t, (stepState (initHookState Nat Nat) Event.opened).sentThisConn
        = subscribeFrame :: t
        ∧ t.filter (fun f => isSubscribeFrame f) = [] := by
  have h := subscribe_once_per_connection
    (stepState (initHookState Nat Nat) Event.opened) ⟨[Event.opened], rfl⟩
  exact ⟨h.1, h.2 rfl⟩

/-- C4: an unexpected closure of an open connection schedules a
reconnection attempt after the fixed 3000 ms delay; the attempt counter
for one connection instance never exceeds the configured bound of 10 in
any reachable state; and on the subsequent `Connected` transition the
subscription declaration is sent again. -/
theorem reconnect_bounded_and_resubscribes {T P : Type}
    (s : HookState T P) (hr : reachable s)
    (ho : s.readyState = ReadyState.OPEN) :
    (stepState s Event.closed).reconnectPending = true
    ∧ (stepState s Event.closed).connectionStatus = "Disconnected"
    ∧ reconnectIntervalMs = 3000
    ∧ (∀ u : HookState T P,
        reachable u → u.reconnectCount ≤ maxReconnectAttempts)
    ∧ (∀ u : HookState T P, stepOut u Event.opened = [subscribeFrame]) := by
  have hi := reachable_inv s hr
  have hc0 : s.reconnectCount = 0 := hi.2.2.2.1 ho
  have hne : ¬ s.readyState = ReadyState.CLOSED := by simp [ho]
  refine ⟨?_, ?_, rfl,
    fun u hu => (reachable_inv u hu).2.2.2.2.2, fun u => rfl⟩
  · simp [stepState, step, hne, hc0, maxReconnectAttempts]
  · simp [stepState, step, hne]

/-- Witness for C4 at the state reached by opening the socket. -/
theorem reconnect_bounded_and_resubscribes_witness :
    (stepState (stepState (initHookState Nat Nat) Event.opened)
        Event.closed).reconnectPending = true
    ∧ reconnectIntervalMs = 3000
    ∧ stepOut (stepState (stepState (initHookState Nat Nat) Event.opened)
        Event.closed) Event.opened = [subscribeFrame] := by
  have h := reconnect_bounded_and_resubscribes
    (stepState (initHookState Nat Nat) Event.opened) ⟨[Event.opened], rfl⟩ rfl
  exact ⟨h.1, h.2.2.1, h.2.2.2.2 _⟩

/-- C5: an inbound frame with an unrecognized type tag leaves the
Timeline and PendingTicket collections unchanged, leaves the socket
readyState unchanged (the connection is not closed), and leaves the
connection status unchanged. -/
theorem unknown_type_noop {T P : Type} (s : HookState T P) (m : Msg T P)
    (h : m.type ∉ (["initial_data", "timeline_update",
        "pending_tickets_update", "ticket_update",
        "connection_established", "error"] : List String)) :
    (stepState s (Event.recv m)).store.timeline = s.store.timeline
    ∧ (stepState s (Event.recv m)).store.pendingTickets
        = s.store.pendingTickets
    ∧ (stepState s (Event.recv m)).readyState = s.readyState
    ∧ (stepState s (Event.recv m)).connectionStatus = s.connectionStatus := by
  simp only [List.mem_cons, List.mem_singleton, not_or] at h
  obtain ⟨h1, h2, h3, _⟩ := h
  by_cases ho : s.readyState = ReadyState.OPEN <;>
    simp [stepState, step, ho, handleMessage, h1, h2, h3]

/-- Witness for C5 at the frame type `unsupported_xyz`. -/
theorem unknown_type_noop_witness :
    (stepState (initHookState Nat Nat)
        (Event.recv { type := "unsupported_xyz", timeline := none,
                      pending_tickets := none })).store.timeline = []
    ∧ (stepState (initHookState Nat Nat)
        (Event.recv { type := "unsupported_xyz", timeline := none,
                      pending_tickets := none })).readyState
        = ReadyState.CONNECTING := by
  have h := unknown_type_noop (initHookState Nat Nat)
    { type := "unsupported_xyz", timeline := none, pending_tickets := none }
    (by decide)
  exact ⟨h.1, h.2.2.1⟩

/-- C6: while the connection status is not `Connected`, the consumer
`send(message)` wrapper emits nothing on the wire and leaves the hook
state unchanged (in particular nothing is buffered or queued). -/
theorem send_disconnected_noop {T P : Type} (s : HookState T P)
    (payload : String) (hr : reachable s)
    (h : s.connectionStatus ≠ "Connected") :
    step s (Event.consumerSend payload) = (s, []) := by
  have hi := reachable_inv s hr
  have ho : ¬ s.readyState = ReadyState.OPEN := fun ho => h (hi.1.mpr ho)
  simp [step, ho]

/-- Witness for C6 in the initial (still connecting) state. -/
theorem send_disconnected_noop_witness :
    step (initHookState Nat Nat) (Event.consumerSend "hello")
      = (initHookState Nat Nat, []) :=
  send_disconnected_noop (initHookState Nat Nat) "hello" ⟨[], rfl⟩
    (by decide)

/-- C8: connection close and connection error leave the store slice
(Timeline, PendingTicket collection and last message) unchanged, and
exhaustion of the reconnection attempts is terminal: when the attempt
counter has reached the bound, a further close schedules no retry,
still preserves the store, and only flips the status to
`Disconnected`. -/
theorem disconnect_preserves_store {T P : Type} (s : HookState T P) :
    (stepState s Event.closed).store = s.store
    ∧ (stepState s Event.errored).store = s.store
    ∧ (s.readyState ≠ ReadyState.CLOSED →
        s.reconnectCount = maxReconnectAttempts →
        (stepState s Event.closed).reconnectPending = false
        ∧ (stepState s Event.closed).store = s.store
        ∧ (stepState s Event.closed).connectionStatus = "Disconnected") := by
  refine ⟨?_, ?_, fun hne hcnt => ?_⟩
  · by_cases hc : s.readyState = ReadyState.CLOSED <;>
      by_cases hlt : s.reconnectCount < maxReconnectAttempts <;>
      simp [stepState, step, hc, hlt]
  · by_cases hc : s.readyState = ReadyState.CLOSED <;>
      by_cases hlt : s.reconnectCount < maxReconnectAttempts <;>
      simp [stepState, step, hc, hlt]
  · have hlt : ¬ s.reconnectCount < maxReconnectAttempts := by omega
    refine ⟨?_, ?_, ?_⟩ <;> simp [stepState, step, hne, hlt]

/-- Witness for C8 at a state whose attempt counter has reached the
bound. -/
theorem disconnect_preserves_store_witness :
    (stepState
        ({ store := { timeline := [4], pendingTickets := [7],
                      lastMessage := none }
           connectionStatus := "Connecting"
           readyState := ReadyState.CONNECTING
           pingTimerActive := false
           reconnectPending := false
           reconnectCount := maxReconnectAttempts
           sentThisConn := [] } : HookState Nat Nat)
        Event.closed).reconnectPending = false
    ∧ (stepState
        ({ store := { timeline := [4], pendingTickets := [7],
                      lastMessage := none }
           connectionStatus := "Connecting"
           readyState := ReadyState.CONNECTING
           pingTimerActive := false
           reconnectPending := false
           reconnectCount := maxReconnectAttempts
           sentThisConn := [] } : HookState Nat Nat)
        Event.closed).store.timeline = [4] := by
  have h := disconnect_preserves_store
    ({ store := { timeline := [4], pendingTickets := [7],
                  lastMessage := none }
       connectionStatus := "Connecting"
       readyState := ReadyState.CONNECTING
       pingTimerActive := false
       reconnectPending := false
       reconnectCount := maxReconnectAttempts
       sentThisConn := [] } : HookState Nat Nat)
  have h3 := h.2.2 (by decide) rfl
  exact ⟨h3.1, by rw [h3.2.1]⟩
